import Mathlib

/-!
Verification of the tfp-causalimpact-customized repository against its
natural-language specification.

The development shallowly embeds the two source files:

* `src/causalimpact_gibbs/data.py` — the dataset-preparation pipeline
  (`CausalImpactData.__init__` and `_validate_data_and_columns`);
* `src/causalimpact/plot.py` — the plot-data transformation pipeline
  (`plot`, `_create_plot_df`, `_create_plot_component_df`).

Tables are modelled as lists of rows; numeric cells are `Option ℚ`
(`none` models pandas NaN / a missing value); the time index is `Int`.
pandas-specific row ordering (sorted group keys, column-major melt order)
is abstracted: all properties proved here are order-insensitive.
-/

namespace CausalImpactSpec

/-! ## String utilities

`_create_plot_component_df` classifies columns by regular-expression
substitution (`pandas.Series.str.replace(pat, "", regex=True)`, i.e.
`re.sub`) and substring search (`str.contains`, i.e. `re.search`).  The
patterns used in the source are plain alternations of literal strings, so
`re.sub` semantics specialize to: scan left to right, at each position try
the alternatives in order, remove the first that matches, continue after
the removed text; and `re.search` specializes to plain substring search.
-/

/-- One step of literal-alternation matching: the first pattern in `pats`
that is a non-empty prefix of `cs`. -/
def firstPat (pats : List (List Char)) (cs : List Char) : Option (List Char) :=
  pats.find? (fun p => !p.isEmpty && p.isPrefixOf cs)

/-- Fuel-driven core of `re.sub(pat1|pat2|..., "", s)` for literal
alternatives.  Fuel is the length of the remaining text; each step consumes
at least one character, so the fuel never runs out when started at
`cs.length`. -/
def stripPatsAux (pats : List (List Char)) : Nat → List Char → List Char
  | 0, _ => []
  | _, [] => []
  | fuel + 1, c :: cs =>
    match firstPat pats (c :: cs) with
    | some p => stripPatsAux pats fuel (List.drop (p.length - 1) cs)
    | none => c :: stripPatsAux pats fuel cs

/-- `re.sub` of an alternation of literal patterns by the empty string. -/
def stripPats (pats : List String) (s : String) : String :=
  String.mk (stripPatsAux (pats.map String.toList) s.toList.length s.toList)

/-- Plain substring search (`re.search` of a literal pattern):
`listContainsSub needle hay` is true iff `needle` occurs contiguously in
`hay`. -/
def listContainsSub (needle : List Char) : List Char → Bool
  | [] => needle.isEmpty
  | c :: cs => needle.isPrefixOf (c :: cs) || listContainsSub needle cs

/-- `needle` occurs as a substring of `hay`. -/
def strContains (hay needle : String) : Bool :=
  listContainsSub needle.toList hay.toList

/-- Python `str.capitalize` (as used by `pandas.Series.str.capitalize`):
first character upper-cased, the rest lower-cased. -/
def pyCapitalize (s : String) : String :=
  match s.toList with
  | [] => ""
  | c :: cs => String.mk (c.toUpper :: cs.map Char.toLower)


/-! ## The evaluation table (`series`, input to the plot pipeline)

`_create_plot_df` does `series["time"] = series.index`, so every row
carries its time value; the four period-boundary columns are replicated on
every row (EvaluationTable, spec section 3).  The remaining (data) columns
are name/value pairs; `none` models NaN. -/

structure SeriesRow where
  time : Int
  p1 : Int  -- pre_period_start
  p2 : Int  -- pre_period_end
  p3 : Int  -- post_period_start
  p4 : Int  -- post_period_end
  cells : List (String × Option ℚ)
deriving DecidableEq

/-- The evaluation table: `sts_mod.evaluate()` output plus the `time`
column added by `_create_plot_df`. -/
abbrev Series := List SeriesRow

/-! ## `_create_plot_component_df` (plot.py lines 515-617) -/

/-- `valid_components = {"lines", "bands", "std"}` (plot.py line 547). -/
def validComponents : List String := ["lines", "bands", "std"]

/-- `base_columns` (plot.py lines 552-555). -/
def baseColumns : List String :=
  ["time", "pre_period_start", "pre_period_end",
   "post_period_start", "post_period_end"]

/-- `required_columns` per component (plot.py lines 558-563). -/
def requiredColumns (component : String) : List String :=
  if component = "lines" then baseColumns ++ ["mean", "median", "observed"]
  else if component = "bands" then baseColumns ++ ["lower", "upper"]
  else baseColumns ++ ["mean", "std"]

/-- `statistical_suffixes = "_upper|_lower|_mean|_median|_std"`
(plot.py line 577). -/
def statisticalSuffixes : List String :=
  ["_upper", "_lower", "_mean", "_median", "_std"]

/-- `scale_prefixes = "posterior_|point_effects_|cumulative_effects_"`
(plot.py line 585). -/
def scalePrefixes : List String :=
  ["posterior_", "point_effects_", "cumulative_effects_"]

/-- Derivation of the `scale` column from `scale_stat` (plot.py lines
576-582): strip the statistical suffixes, then map any result containing
"observed" or "posterior" to the `original` scale. -/
def classifyScale (scaleStat : String) : String :=
  let s := stripPats statisticalSuffixes scaleStat
  if strContains s "observed" || strContains s "posterior" then "original" else s

/-- Derivation of the `stat` column from `scale_stat` (plot.py lines
584-586): strip the scale prefixes. -/
def classifyStat (scaleStat : String) : String :=
  stripPats scalePrefixes scaleStat

/-- One melted row: `(time, period columns, scale_stat, value)`
(plot.py lines 570-574). -/
structure MeltRow where
  time : Int
  p1 : Int
  p2 : Int
  p3 : Int
  p4 : Int
  scaleStat : String
  value : Option ℚ
deriving DecidableEq

/-- Column extraction (plot.py line 566: keep columns containing one of
the required stubs as a substring) followed by the melt to long format
(lines 570-574).  The base columns are structural fields of `SeriesRow`
and become the `id_vars`; the data cells that survive the stub filter are
the value variables.  Melt row order is abstracted (pandas produces them
column-major; the properties proved below are order-insensitive). -/
def meltComponent (series : Series) (component : String) : List MeltRow :=
  series.flatMap (fun r =>
    (r.cells.filter
      (fun c => (requiredColumns component).any (fun stub => strContains c.1 stub))).map
      (fun c =>
        { time := r.time, p1 := r.p1, p2 := r.p2, p3 := r.p3, p4 := r.p4,
          scaleStat := c.1, value := c.2 }))

/-- A `lines`-component output row: the melted row with `scale`/`stat`
derived and `scale_stat` dropped (plot.py lines 576-589). -/
structure LineRow where
  time : Int
  p1 : Int
  p2 : Int
  p3 : Int
  p4 : Int
  value : Option ℚ
  scale : String
  stat : String
deriving DecidableEq

/-- Classification step applied per melted row. -/
def toLineRow (m : MeltRow) : LineRow :=
  { time := m.time, p1 := m.p1, p2 := m.p2, p3 := m.p3, p4 := m.p4,
    value := m.value, scale := classifyScale m.scaleStat,
    stat := classifyStat m.scaleStat }

/-- The `lines` component table. -/
def linesDf (series : Series) : List LineRow :=
  (meltComponent series "lines").map toLineRow

/-- The pivot index `(time, scale, period columns)` used by the band
pivots (plot.py lines 593-596). -/
structure PKey where
  time : Int
  p1 : Int
  p2 : Int
  p3 : Int
  p4 : Int
  scale : String
deriving DecidableEq

/-- Pivot key of a melted row (the `scale` column having been derived). -/
def keyOfMelt (m : MeltRow) : PKey :=
  { time := m.time, p1 := m.p1, p2 := m.p2, p3 := m.p3, p4 := m.p4,
    scale := classifyScale m.scaleStat }

/-- First-occurrence deduplication (structural, with an accumulator of
already-seen keys). -/
def dedupFirstAux [DecidableEq α] (seen : List α) : List α → List α
  | [] => []
  | a :: l =>
    if a ∈ seen then dedupFirstAux seen l else a :: dedupFirstAux (a :: seen) l

/-- First-occurrence deduplication of a list. -/
def dedupFirst [DecidableEq α] (l : List α) : List α :=
  dedupFirstAux [] l

/-- The group keys of `pivot_table` (plot.py lines 597-601): pandas drops
NaN values before grouping, so only keys with at least one non-null value
appear in the pivoted frame.  pandas sorts the keys; first-occurrence
order is used here instead (order-insensitive properties only). -/
def presentKeys (longs : List MeltRow) : List PKey :=
  dedupFirst ((longs.filter (fun m => m.value.isSome)).map keyOfMelt)

/-- `pivot_table` cell: the mean (default `aggfunc`) of the non-null
values of statistic `stat` within group `k`; `none` when the group has no
non-null value for that statistic (pandas leaves NaN). -/
def aggStat (longs : List MeltRow) (k : PKey) (stat : String) : Option ℚ :=
  let vs := longs.filterMap (fun m =>
    if keyOfMelt m = k ∧ classifyStat m.scaleStat = stat then m.value else none)
  if vs.isEmpty then none else some (vs.sum / (vs.length : ℚ))

/-- A band-component output row (`bands` or `std`): after the pivot,
`lower`/`upper` are sibling columns of the `(time, scale)` key and a
`band_method` discriminator is stamped (plot.py lines 592-613).  For the
`std` component the intermediate `mean`/`std` pivot columns are dropped
(line 611), so they do not appear in this output schema. -/
structure BandRow where
  time : Int
  p1 : Int
  p2 : Int
  p3 : Int
  p4 : Int
  scale : String
  lower : Option ℚ
  upper : Option ℚ
  band_method : String
deriving DecidableEq

/-- The `bands` component table: pivot of the melted quantile columns with
`band_method = "quantiles"` (plot.py lines 592-604). -/
def bandsDf (series : Series) : List BandRow :=
  let longs := meltComponent series "bands"
  (presentKeys longs).map (fun k =>
    { time := k.time, p1 := k.p1, p2 := k.p2, p3 := k.p3, p4 := k.p4,
      scale := k.scale,
      lower := aggStat longs k "lower", upper := aggStat longs k "upper",
      band_method := "quantiles" })

/-- NaN-propagating binary arithmetic on nullable cells. -/
def omap2 (f : ℚ → ℚ → ℚ) : Option ℚ → Option ℚ → Option ℚ
  | some a, some b => some (f a b)
  | _, _ => none

/-- The `std` component table (plot.py lines 592-613): pivot of the melted
`mean`/`std` columns, then `lower = mean - z·std`, `upper = mean + z·std`
and `band_method = "std"`; the `mean`/`std` columns are dropped.
`z` stands for the critical value computed by the external library call
`tfp.distributions.Normal(0, 1).quantile(1 - alpha / 2)` (plot.py line
608) — the standard-normal quantile at `1 - alpha/2`, an out-of-scope
collaborator per the spec. -/
def stdDf (series : Series) (z : ℚ) : List BandRow :=
  let longs := meltComponent series "std"
  (presentKeys longs).map (fun k =>
    { time := k.time, p1 := k.p1, p2 := k.p2, p3 := k.p3, p4 := k.p4,
      scale := k.scale,
      lower := omap2 (fun m s => m - z * s) (aggStat longs k "mean") (aggStat longs k "std"),
      upper := omap2 (fun m s => m + z * s) (aggStat longs k "mean") (aggStat longs k "std"),
      band_method := "std" })

/-- Result of `_create_plot_component_df`: a lines table or a band table,
depending on the component. -/
inductive ComponentResult
  | lines (rows : List LineRow)
  | bands (rows : List BandRow)
deriving DecidableEq

/-- The invalid-component error message (plot.py line 549).  Python
renders the set `valid_components` inside the f-string; its element order
is hash-dependent, so the rendering is fixed here to one canonical order —
the property proved about it is only that it names the three allowed
components. -/
def invalidComponentMsg (component : String) : String :=
  "component must be one of \x7blines, bands, std\x7d. Got " ++ component ++ "."

/-- `_create_plot_component_df(series, component, alpha)` (plot.py lines
515-617), with `z` the externally computed normal critical value for
`alpha` (see `stdDf`).  An unrecognized component raises `ValueError`
before any table is built (lines 547-549), modelled by the `Except`
error branch. -/
def createPlotComponentDf (series : Series) (component : String) (z : ℚ) :
    Except String ComponentResult :=
  if component ∈ validComponents then
    if component = "lines" then .ok (.lines (linesDf series))
    else if component = "bands" then .ok (.bands (bandsDf series))
    else .ok (.bands (stdDf series z))
  else .error (invalidComponentMsg component)

/-! ## `_create_plot_df` (plot.py lines 443-508) -/

/-- A row of the merged plot frame handed to the renderers. -/
structure PlotRow where
  time : Int
  p1 : Int
  p2 : Int
  p3 : Int
  p4 : Int
  scale : String
  stat : String
  value : Option ℚ
  lower : Option ℚ
  upper : Option ℚ
  band_method : Option String
  zero : Option ℚ
  scale_pretty : String
  stat_pretty : Option String
deriving DecidableEq

/-- `any(["std" in col for col in series.columns])` (plot.py line 471).
The fixed columns `time`/`pre_period_start`/... never contain "std", so
only the data-cell names matter. -/
def seriesHasStd (series : Series) : Bool :=
  series.any (fun r => r.cells.any (fun c => strContains c.1 "std"))

/-- The zero-reference column (plot.py lines 489-490): `0` everywhere,
then NaN on the original scale. -/
def zeroColumn (scale : String) : Option ℚ :=
  if scale = "original" then none else some 0

/-- `scale_pretty` (plot.py lines 493-501): display label, then an ordered
categorical over Original < Pointwise < Cumulative.  The conditional is
exhaustive, so every value lies in the category list and none becomes
NaN. -/
def scalePretty (scale : String) : String :=
  if scale = "original" then "Original"
  else if scale = "point_effects" then "Pointwise" else "Cumulative"

/-- `stat_pretty` (plot.py lines 502-506): capitalized stat, then an
ordered categorical over Observed < Mean < Median; a value outside the
category list becomes NaN (pandas `Categorical` semantics). -/
def statPretty (stat : String) : Option String :=
  let c := pyCapitalize stat
  if c ∈ ["Observed", "Mean", "Median"] then some c else none

/-- The merge keys (plot.py lines 480-483): `time`, `scale` and the four
period columns. -/
def mergeKeysMatch (l : LineRow) (b : BandRow) : Bool :=
  l.time = b.time ∧ l.scale = b.scale ∧ l.p1 = b.p1 ∧ l.p2 = b.p2 ∧
    l.p3 = b.p3 ∧ l.p4 = b.p4

/-- Assembly of one merged row, including the derived `zero`,
`scale_pretty` and `stat_pretty` columns (added frame-wide after the merge
in the source, lines 489-506, which is row-wise equivalent). -/
def mkPlotRow (l : LineRow) (lower upper : Option ℚ) (bm : Option String) : PlotRow :=
  { time := l.time, p1 := l.p1, p2 := l.p2, p3 := l.p3, p4 := l.p4,
    scale := l.scale, stat := l.stat, value := l.value,
    lower := lower, upper := upper, band_method := bm,
    zero := zeroColumn l.scale, scale_pretty := scalePretty l.scale,
    stat_pretty := statPretty l.stat }

/-- `lines_df.merge(bands_df, on=[...], how="left")` (plot.py lines
478-484): each lines row is paired with every band row agreeing on the
merge keys; an unmatched lines row survives with NaN band columns. -/
def mergeLinesBands (lines : List LineRow) (bands : List BandRow) : List PlotRow :=
  lines.flatMap (fun l =>
    let ms := bands.filter (fun b => mergeKeysMatch l b)
    if ms.isEmpty then [mkPlotRow l none none none]
    else ms.map (fun b => mkPlotRow l b.lower b.upper (some b.band_method)))

/-- `_create_plot_df(series, alpha)` (plot.py lines 443-508): build the
lines and quantile-band components, append the std-derived bands when any
column name contains "std", and left-join lines with bands.  `z` is the
externally computed normal critical value for `alpha` (see `stdDf`). -/
def createPlotDf (series : Series) (z : ℚ) : List PlotRow :=
  let lines := linesDf series
  let bands := bandsDf series ++ (if seriesHasStd series then stdDf series z else [])
  mergeLinesBands lines bands

/-! ## `plot` (plot.py lines 341-440) -/

/-- A Python value stored in the `plot_params` dictionary.  The defaults
only use booleans, strings, integers, rationals, lists of strings and
string-keyed string dictionaries. -/
inductive PVal
  | b (x : Bool)
  | s (x : String)
  | i (x : Int)
  | q (x : ℚ)
  | strList (xs : List String)
  | strDict (xs : List (String × String))
deriving DecidableEq

/-- Python truthiness of a stored value (used by `if plot_params[...]:`). -/
def PVal.truthy : PVal → Bool
  | .b x => x
  | .s x => x ≠ ""
  | .i x => x ≠ 0
  | .q x => x ≠ 0
  | .strList xs => !xs.isEmpty
  | .strDict xs => !xs.isEmpty

/-- The `plot_params` defaults dictionary (plot.py lines 370-402). -/
def defaultPlotParams : List (String × PVal) :=
  [("static_plot", .b true),
   ("backend", .s "matplotlib"),
   ("alpha", .q (1 / 20)),
   ("show_median", .b false),
   ("use_std_intervals", .b false),
   ("chart_width", .i 600),
   ("chart_height", .i 200),
   ("axis_label_font_size", .i 16),
   ("strip_title_font_size", .i 20),
   ("x_label", .s "Date"),
   ("y_labels", .strList ["Observed", "Pointwise Effect", "Cumulative Effect"]),
   ("title", .s "Interrupted Time Series Analysis Over Time"),
   ("title_font_size", .i 16),
   ("axis_title_font_size", .i 12),
   ("y_formatter", .s "millions"),
   ("axes2_legend_label", .s "Cumulative"),
   ("axes1_legend_label", .s "Pointwise"),
   ("axes0_legend_label_mean", .s "Mean"),
   ("axes0_legend_label_observed", .s "Observed"),
   ("y_formatter_unit", .s "dollar"),
   ("legend_labels", .strDict
     [("mean", "Mean"), ("observed", "Observed"), ("pointwise", "Pointwise"),
      ("cumulative", "Cumulative"), ("pre-period-start", "Pre-Period Start"),
      ("pre-period-end", "Pre-Period End"), ("post-period-start", "Post-Period Start"),
      ("post-period-end", "Post-Period End")])]

/-- The caller's `**kwargs`, as an association list. -/
abbrev Kwargs := List (String × PVal)

/-- The kwargs merge (plot.py lines 403-405): for every key of the
defaults dictionary, take the caller's value when present, else the
default.  Keys of `kwargs` outside the defaults are never consulted.
(The `if kwargs:` guard in the source only skips the loop when `kwargs`
is empty, in which case the loop would be the identity anyway.) -/
def mergePlotParams (kwargs : Kwargs) : List (String × PVal) :=
  defaultPlotParams.map (fun kv => (kv.1, (kwargs.lookup kv.1).getD kv.2))

/-- `plot_params[k]` on the merged dictionary (every key of the defaults
is present; the fallback is unreachable). -/
def getParam (ps : List (String × PVal)) (k : String) : PVal :=
  (ps.lookup k).getD (.b false)

/-- Re-categorization of `stat_pretty` over Observed < Mean (plot.py
lines 422-424): values outside the new category list become NaN. -/
def recatStatPretty (r : PlotRow) : PlotRow :=
  { r with stat_pretty :=
      match r.stat_pretty with
      | some v => if v ∈ ["Observed", "Mean"] then some v else none
      | none => none }

/-- The backend-error message (plot.py lines 436-439). -/
def invalidBackendMsg (backend : PVal) : String :=
  "backend must be one of altair or matplotlib. Got " ++
    (match backend with | .s x => x | _ => "non-string") ++ "."

/-- The body of `plot` after the kwargs merge (plot.py lines 407-440),
given the merged parameter dictionary: build the plot frame, apply the
band-method row filter, apply the median filter, and hand the result to
the selected renderer.  The returned table is exactly the dataframe passed
to `_draw_classic_plot` / `_draw_interactive_plot` /
`_draw_matplotlib_plot`; an unrecognized backend raises `ValueError`.
`z` is the externally computed normal critical value for the merged
`alpha` parameter (see `stdDf`). -/
def plotFromParams (series : Series) (z : ℚ) (ps : List (String × PVal)) :
    Except String (List PlotRow) :=
  let mainPlotDf := createPlotDf series z
  let plotDf1 :=
    if (getParam ps "use_std_intervals").truthy then
      mainPlotDf.filter (fun r => r.band_method ≠ some "quantile")
    else
      mainPlotDf.filter (fun r => r.band_method ≠ some "std")
  let plotDf2 :=
    if (getParam ps "show_median").truthy then
      (plotDf1.filter (fun r => r.stat ≠ "median")).map recatStatPretty
    else plotDf1
  if getParam ps "backend" = .s "altair" then
    if (getParam ps "static_plot").truthy then
      .ok (plotDf2.filter (fun r => r.stat ≠ "median"))
    else .ok plotDf2
  else if getParam ps "backend" = .s "matplotlib" then .ok plotDf2
  else .error (invalidBackendMsg (getParam ps "backend"))

/-- `plot(ci_model, **kwargs)` (plot.py lines 341-440), returning the
table handed to the chosen renderer. -/
def plotRendererInput (series : Series) (kwargs : Kwargs) (z : ℚ) :
    Except String (List PlotRow) :=
  plotFromParams series z (mergePlotParams kwargs)

/-! ## `causalimpact_gibbs/data.py`

A pandas DataFrame with a numeric time index: `colNames` are the column
labels, each row is its index value paired with one nullable cell per
column (`none` models NaN).  The spec's claims only exercise numeric
frames, so the dtype check of `_validate_data_and_columns` is vacuously
true in this model. -/

structure Frame where
  colNames : List String
  rows : List (Int × List (Option ℚ))
deriving DecidableEq

/-- The frame's index, `data.index`. -/
def Frame.index (f : Frame) : List Int := f.rows.map Prod.fst

/-- The cells of column `c` (all `none` when the column is absent, but
every use below is guarded by a membership check, as in the source). -/
def Frame.colValues (f : Frame) (c : String) : List (Option ℚ) :=
  f.rows.map (fun r => (r.2.get? (f.colNames.indexOf c)).getD none)

/-- `data[cols]`: column projection preserving the row index. -/
def Frame.selectCols (f : Frame) (cs : List String) : Frame :=
  { colNames := cs,
    rows := f.rows.map (fun r =>
      (r.1, cs.map (fun c => (r.2.get? (f.colNames.indexOf c)).getD none))) }

/-- `df.loc[mask on the index]`: row filter by an index predicate. -/
def Frame.filterIndex (f : Frame) (p : Int → Bool) : Frame :=
  { colNames := f.colNames, rows := f.rows.filter (fun r => p r.1) }

/-- `df.dropna()`: drop every row containing a missing value. -/
def Frame.dropna (f : Frame) : Frame :=
  { colNames := f.colNames, rows := f.rows.filter (fun r => !r.2.any Option.isNone) }

/-- The non-null entries of a column (pandas `skipna=True`). -/
def nonNullValues (vs : List (Option ℚ)) : List ℚ := vs.filterMap id

/-- Mean of a list of rationals. -/
def qMean (vs : List ℚ) : ℚ := vs.sum / (vs.length : ℚ)

/-- Population variance (`ddof=0`) of a list, `none` on an empty list
(pandas returns NaN there).  `Series.std(skipna=True, ddof=0)` is the
square root of this over the non-null entries; that square root is
irrational in general and so not representable in ℚ, but it equals zero
exactly when the variance does, so the source's `std == 0` test (data.py
line 159) is embedded as `popVariance? = some 0` (an all-NaN column gives
`none`, and pandas `NaN == 0` is likewise false). -/
def popVariance? (vs : List ℚ) : Option ℚ :=
  if vs.isEmpty then none
  else some (((vs.map (fun x => (x - qMean vs) ^ 2)).sum) / (vs.length : ℚ))

/-- The Python exception classes raised by `data.py`. -/
inductive DataError
  | keyError (msg : String)
  | valueError (msg : String)
  | indexError (msg : String)
deriving DecidableEq

/-- Target-column resolution (data.py lines 151-153): the given name, or
the first column when unspecified (`data.columns[0]`, which raises
`IndexError` on an empty frame — the `none` case). -/
def resolveTarget (f : Frame) (targetColumnName : Option String) : Option String :=
  match targetColumnName with
  | some t => some t
  | none => f.colNames.head?

/-- `_validate_data_and_columns(data, target_column_name)` (data.py lines
132-182): resolve the target column; reject an absent explicit name
(`KeyError`); reject a constant target (`ValueError`, via
`std(skipna=True, ddof=0) == 0`); partition the remaining columns into
features preserving the original column order; reorder the frame target
first; require at least 3 non-missing target observations and no missing
feature values.  The final numeric-dtype check always passes in this
all-rational model. -/
def featureColumnsOf (f : Frame) (target : String) : Option (List String) :=
  if f.colNames.length ≤ 1 then none
  else some (f.colNames.filter (fun c => c ≠ target))

/-- `data[[target_column_name] + (feature_columns or [])]` (data.py line
174): the frame reordered target first. -/
def reorderedData (f : Frame) (target : String) : Frame :=
  f.selectCols (target :: (featureColumnsOf f target).getD [])

def validateDataAndColumns (f : Frame) (targetColumnName : Option String) :
    Except DataError (Frame × String × Option (List String)) :=
  match resolveTarget f targetColumnName with
  | none => .error (.indexError "index 0 is out of bounds for axis 0 with size 0")
  | some target =>
    if target ∈ f.colNames then
      if popVariance? (nonNullValues (f.colValues target)) = some 0 then
        .error (.valueError "Input response cannot be constant.")
      else if (nonNullValues ((reorderedData f target).colValues target)).length < 3 then
        .error (.valueError "Input data must have at least 3 observations.")
      else if ((featureColumnsOf f target).getD []).any
          (fun c => ((reorderedData f target).colValues c).any Option.isNone) then
        .error (.valueError "Input data cannot have any missing values.")
      else
        .ok (reorderedData f target, target, featureColumnsOf f target)
    else
      .error (.keyError ("Specified outcome_column (" ++ target ++ ") not found in data"))

/-- Modelled from the spec: `causalimpact_gibbs.indices.
parse_and_validate_date_data` is imported by `data.py` but its source is
not under `src/`.  Per spec section 4.1 (Period Validator), each bound
must resolve to an index entry, each period must satisfy start ≤ end, and
the periods must not overlap (the pre-period ends strictly before the
post-period begins); the validated periods are returned in the index's
native type. -/
def parseAndValidatePeriods (f : Frame) (pre post : Int × Int) :
    Except DataError ((Int × Int) × (Int × Int)) :=
  if pre.1 ∈ f.index ∧ pre.2 ∈ f.index ∧ post.1 ∈ f.index ∧ post.2 ∈ f.index then
    if pre.1 ≤ pre.2 ∧ post.1 ≤ post.2 then
      if pre.2 < post.1 then .ok (pre, post)
      else .error (.valueError "pre-period and post-period must not overlap")
    else .error (.valueError "period start must not be after period end")
  else .error (.valueError "period bound not found in the data index")

/-- Modelled from the spec: `causalimpact_gibbs.standardize.Scaler` is
imported by `data.py` but its source is not under `src/`.  Per spec
sections 3 and 4.2 it stores a per-column mean and population standard
deviation fitted over a reference window, and `transform` applies
`(x - mean) / std` column-wise.  The standard deviation is irrational in
general; `Rat.sqrt` (truncating) stands in for it, which is harmless here
because no claim proved below depends on transformed values — the only
claims touching normalization have `standardize_data = False`. -/
structure Scaler where
  stats : List (String × ℚ × ℚ)
deriving DecidableEq

/-- Modelled from the spec: fit a `Scaler` on a reference window (see
`Scaler`). -/
def Scaler.fit (f : Frame) : Scaler :=
  { stats := f.colNames.map (fun c =>
      let vs := nonNullValues (f.colValues c)
      (c, qMean vs, Rat.sqrt ((popVariance? vs).getD 0))) }

/-- Modelled from the spec: column-wise `(x - mean) / std` (see
`Scaler`). -/
def Scaler.transform (sc : Scaler) (f : Frame) : Frame :=
  { colNames := f.colNames,
    rows := f.rows.map (fun r =>
      (r.1, (f.colNames.zip r.2).map (fun cv =>
        match (sc.stats.find? (fun st => st.1 = cv.1)), cv.2 with
        | some st, some x => some ((x - st.2.1) / st.2.2)
        | _, _ => none))) }

/-- The fields of a constructed `CausalImpactData` instance that the
claims refer to (data.py lines 63-129).  The TensorFlow artifacts
(`pre_intervention_target_ts`, the masked time series, and
`normalized_whole_period_features`) are external-interface objects and
are not modelled. -/
structure CausalImpactData where
  data : Frame
  targetCol : String
  featureColumns : Option (List String)
  preInterventionPeriod : Int × Int
  postInterventionPeriod : Int × Int
  standardizeData : Bool
  preInterventionData : Frame
  afterPreInterventionData : Frame
  numStepsForecast : Nat
  normalizedPreInterventionData : Frame
  normalizedAfterPreInterventionData : Frame
deriving DecidableEq

/-- `CausalImpactData.__init__` (data.py lines 63-129): validate the
periods (line 86), validate the data and columns (line 89), slice the
pre-period (`pre_start ≤ index ≤ pre_end`, lines 93-94) and the after-pre
period (`index > pre_end`, line 99), standardize both slices when
requested (lines 102-111), and drop rows with missing values from the
normalized after-pre slice when `drop_post_period_nan` is set (lines
112-113).  A raised exception is the `Except` error branch: validation
precedes slicing, so on failure no slice is materialized. -/
def causalImpactDataInit (df : Frame) (pre post : Int × Int)
    (dropPostPeriodNan : Bool) (targetColName : Option String)
    (standardizeData : Bool) : Except DataError CausalImpactData :=
  match parseAndValidatePeriods df pre post with
  | .error e => .error e
  | .ok (preP, postP) =>
    match validateDataAndColumns df targetColName with
    | .error e => .error e
    | .ok (data, target, features) =>
      let preData := data.filterIndex (fun i => decide (preP.1 ≤ i) && decide (i ≤ preP.2))
      let afterPreData := data.filterIndex (fun i => decide (preP.2 < i))
      let norm :=
        if standardizeData then
          let scaler := Scaler.fit preData
          (scaler.transform preData, scaler.transform afterPreData)
        else (preData, afterPreData)
      .ok { data := data, targetCol := target, featureColumns := features,
            preInterventionPeriod := preP, postInterventionPeriod := postP,
            standardizeData := standardizeData,
            preInterventionData := preData,
            afterPreInterventionData := afterPreData,
            numStepsForecast := afterPreData.rows.length,
            normalizedPreInterventionData := norm.1,
            normalizedAfterPreInterventionData :=
              if dropPostPeriodNan then norm.2.dropna else norm.2 }

/-! ## Helper lemmas -/

/-- The empty needle occurs in every haystack. -/
lemma listContainsSub_nil (l : List Char) : listContainsSub [] l = true := by
  induction l with
  | nil => rfl
  | cons c cs ih => simp [listContainsSub, List.isPrefixOf, ih]

/-- A prefix of `h` is a prefix of `h ++ t`. -/
lemma isPrefixOf_append_right (n h t : List Char) (hp : n.isPrefixOf h = true) :
    n.isPrefixOf (h ++ t) = true := by
  induction n generalizing h with
  | nil => simp [List.isPrefixOf]
  | cons a n' ih =>
    cases h with
    | nil => simp [List.isPrefixOf] at hp
    | cons b h' =>
      simp only [List.isPrefixOf, List.cons_append, Bool.and_eq_true] at hp ⊢
      exact ⟨hp.1, ih h' hp.2⟩

/-- A substring of `h` is a substring of `h ++ t`. -/
lemma listContainsSub_append_right (n h t : List Char)
    (hc : listContainsSub n h = true) : listContainsSub n (h ++ t) = true := by
  induction h with
  | nil =>
    simp only [listContainsSub, List.isEmpty_iff] at hc
    subst hc
    exact listContainsSub_nil t
  | cons c cs ih =>
    simp only [listContainsSub, Bool.or_eq_true] at hc
    rcases hc with hc | hc
    · cases t with
      | nil => simp [listContainsSub, hc]
      | cons d t' =>
        have := isPrefixOf_append_right n (c :: cs) (d :: t') hc
        simp only [List.cons_append] at this ⊢
        simp [listContainsSub, this]
    · have := ih hc
      simp only [List.cons_append]
      simp [listContainsSub, this]

/-- Substring search is stable under appending to the haystack. -/
lemma strContains_append_right (a b needle : String)
    (h : strContains a needle = true) : strContains (a ++ b) needle = true := by
  unfold strContains at h ⊢
  have hdata : (a ++ b).toList = a.toList ++ b.toList := by
    cases a; cases b; rfl
  rw [hdata]
  exact listContainsSub_append_right _ _ _ h

/-- A nonempty list of equal rationals has that value as its mean. -/
lemma qMean_const (vs : List ℚ) (v : ℚ) (hne : vs ≠ []) (h : ∀ x ∈ vs, x = v) :
    qMean vs = v := by
  have hlen : (vs.length : ℚ) ≠ 0 := by
    have h0 : vs.length ≠ 0 := fun hl => hne (List.length_eq_zero.mp hl)
    exact_mod_cast h0
  have hsum : vs.sum = vs.length • v := List.sum_eq_card_nsmul vs v h
  rw [qMean, hsum, nsmul_eq_mul]
  field_simp

/-- A nonempty list of equal rationals has population variance zero — the
column shape on which `_validate_data_and_columns` raises the
constant-response error. -/
lemma popVariance?_const (vs : List ℚ) (v : ℚ) (hne : vs ≠ [])
    (h : ∀ x ∈ vs, x = v) : popVariance? vs = some 0 := by
  have hzero : (vs.map (fun x => (x - qMean vs) ^ 2)).sum = 0 := by
    apply List.sum_eq_zero
    intro y hy
    obtain ⟨x, hx, rfl⟩ := List.mem_map.mp hy
    rw [h x hx, qMean_const vs v hne h]
    ring
  have hne' : vs.isEmpty = false := by
    cases vs with
    | nil => exact absurd rfl hne
    | cons a l => rfl
  rw [popVariance?, hne', hzero]
  simp

/-- Filtering rows by an index predicate filters the index. -/
lemma filterIndex_index (f : Frame) (p : Int → Bool) :
    (f.filterIndex p).index = f.index.filter p := by
  show ((f.rows.filter (fun r => p r.1)).map Prod.fst) = (f.rows.map Prod.fst).filter p
  induction f.rows with
  | nil => rfl
  | cons r rs ih =>
    by_cases h : p r.1 <;> simp [List.filter_cons, h, ih]

/-- Column projection preserves the row index. -/
lemma selectCols_index (f : Frame) (cs : List String) :
    (f.selectCols cs).index = f.index := by
  show (f.rows.map _).map Prod.fst = f.rows.map Prod.fst
  rw [List.map_map]
  rfl

/-- `_validate_data_and_columns` never touches the row index: the
validated frame has the index of the input frame. -/
lemma validateDataAndColumns_index (f : Frame) (tn : Option String)
    (data : Frame) (t : String) (feats : Option (List String))
    (h : validateDataAndColumns f tn = .ok (data, t, feats)) :
    data.index = f.index := by
  unfold validateDataAndColumns at h
  split at h
  · exact absurd h (by simp)
  · split at h
    · split at h
      · exact absurd h (by simp)
      · split at h
        · exact absurd h (by simp)
        · split at h
          · exact absurd h (by simp)
          · rw [Except.ok.injEq, Prod.mk.injEq] at h
            rw [← h.1, reorderedData]
            exact selectCols_index ..
    · exact absurd h (by simp)

/-- The period validator returns the periods it was given. -/
lemma parseAndValidatePeriods_ok (f : Frame) (pre post : Int × Int)
    (pp : (Int × Int) × (Int × Int))
    (h : parseAndValidatePeriods f pre post = .ok pp) : pp = (pre, post) := by
  unfold parseAndValidatePeriods at h
  split at h
  · split at h
    · split at h
      · exact (Except.ok.inj h).symm
      · exact absurd h (by simp)
    · exact absurd h (by simp)
  · exact absurd h (by simp)

/-- Inversion of a successful `CausalImpactData` construction: the
validated frame, the slices, and — when standardization is off — the
normalized slices. -/
lemma causalImpactDataInit_ok (df : Frame) (pre post : Int × Int)
    (dropNan : Bool) (tn : Option String) (std : Bool) (d : CausalImpactData)
    (h : causalImpactDataInit df pre post dropNan tn std = .ok d) :
    ∃ data t feats,
      validateDataAndColumns df tn = .ok (data, t, feats) ∧
      d.preInterventionPeriod = pre ∧
      d.data = data ∧
      d.standardizeData = std ∧
      d.preInterventionData =
        data.filterIndex (fun i => decide (pre.1 ≤ i) && decide (i ≤ pre.2)) ∧
      d.afterPreInterventionData = data.filterIndex (fun i => decide (pre.2 < i)) ∧
      (std = false →
        d.normalizedPreInterventionData = d.preInterventionData ∧
        d.normalizedAfterPreInterventionData =
          (if dropNan then d.afterPreInterventionData.dropna
           else d.afterPreInterventionData)) := by
  unfold causalImpactDataInit at h
  split at h
  · exact absurd h (by simp)
  · rename_i pp preP postP heqp
    have hpp := parseAndValidatePeriods_ok df pre post (preP, postP) heqp
    rw [Prod.mk.injEq] at hpp
    obtain ⟨hpre, hpost⟩ := hpp
    split at h
    · exact absurd h (by simp)
    · rename_i res data target features heqv
      refine ⟨data, target, features, heqv, ?_⟩
      subst hpre hpost
      rw [← Except.ok.inj h]
      refine ⟨rfl, rfl, rfl, rfl, rfl, ?_⟩
      intro hstd
      subst hstd
      exact ⟨rfl, rfl⟩

/-- Every melted row originates from a series row and inherits its time
and period-boundary values. -/
lemma meltComponent_mem (series : Series) (component : String) (m : MeltRow)
    (hm : m ∈ meltComponent series component) :
    ∃ r ∈ series, m.time = r.time ∧ m.p1 = r.p1 ∧ m.p2 = r.p2 ∧
      m.p3 = r.p3 ∧ m.p4 = r.p4 := by
  simp only [meltComponent, List.mem_flatMap, List.mem_map, List.mem_filter] at hm
  obtain ⟨r, hr, c, -, rfl⟩ := hm
  exact ⟨r, hr, rfl, rfl, rfl, rfl, rfl⟩

/-- Every lines row inherits the time and period-boundary values of some
series row. -/
lemma linesDf_mem (series : Series) (l : LineRow) (hl : l ∈ linesDf series) :
    ∃ r ∈ series, l.time = r.time ∧ l.p1 = r.p1 ∧ l.p2 = r.p2 ∧
      l.p3 = r.p3 ∧ l.p4 = r.p4 := by
  simp only [linesDf, List.mem_map] at hl
  obtain ⟨m, hm, rfl⟩ := hl
  exact meltComponent_mem series "lines" m hm

/-- Every merged plot row takes its time and period-boundary values from
its lines row (the left side of the join). -/
lemma mergeLinesBands_mem (lines : List LineRow) (bands : List BandRow)
    (pr : PlotRow) (hpr : pr ∈ mergeLinesBands lines bands) :
    ∃ l ∈ lines, pr.time = l.time ∧ pr.p1 = l.p1 ∧ pr.p2 = l.p2 ∧
      pr.p3 = l.p3 ∧ pr.p4 = l.p4 := by
  simp only [mergeLinesBands, List.mem_flatMap] at hpr
  obtain ⟨l, hl, hmem⟩ := hpr
  refine ⟨l, hl, ?_⟩
  split at hmem
  · rw [List.mem_singleton] at hmem
    subst hmem
    exact ⟨rfl, rfl, rfl, rfl, rfl⟩
  · rw [List.mem_map] at hmem
    obtain ⟨b, -, rfl⟩ := hmem
    exact ⟨rfl, rfl, rfl, rfl, rfl⟩

/-! ## Concrete example inputs

Small frames and evaluation tables used by the counterexamples and the
witnesses below. -/

/-- Boolean success test for `Except`. -/
def exceptIsOk : Except ε α → Bool
  | .ok _ => true
  | .error _ => false

/-- Decidable equality of `Except` values (element-wise). -/
instance [DecidableEq ε] [DecidableEq α] : DecidableEq (Except ε α) := fun a b =>
  match a, b with
  | .error e₁, .error e₂ =>
    if h : e₁ = e₂ then .isTrue (congrArg Except.error h)
    else .isFalse (fun hh => h (Except.error.inj hh))
  | .ok a₁, .ok a₂ =>
    if h : a₁ = a₂ then .isTrue (congrArg Except.ok h)
    else .isFalse (fun hh => h (Except.ok.inj hh))
  | .error _, .ok _ => .isFalse (fun hh => Except.noConfusion hh)
  | .ok _, .error _ => .isFalse (fun hh => Except.noConfusion hh)

/-- A one-column frame whose target is constantly `5.0`. -/
def constantFrame : Frame :=
  { colNames := ["y"],
    rows := [(0, [some 5]), (1, [some 5]), (2, [some 5]), (3, [some 5]), (4, [some 5])] }

/-- A one-column frame with a missing target value after the pre-period
(index 3). -/
def nanAfterPreFrame : Frame :=
  { colNames := ["y"],
    rows := [(0, [some 1]), (1, [some 2]), (2, [some 3]), (3, [none]), (4, [some 5])] }

/-- A throwaway `CausalImpactData` used as the unreachable fallback when
extracting a known-successful construction. -/
def dummyData : CausalImpactData :=
  { data := ⟨[], []⟩, targetCol := "", featureColumns := none,
    preInterventionPeriod := (0, 0), postInterventionPeriod := (0, 0),
    standardizeData := false, preInterventionData := ⟨[], []⟩,
    afterPreInterventionData := ⟨[], []⟩, numStepsForecast := 0,
    normalizedPreInterventionData := ⟨[], []⟩,
    normalizedAfterPreInterventionData := ⟨[], []⟩ }

/-- The dataset built from `nanAfterPreFrame` without standardization and
with the default `drop_post_period_nan=True`. -/
def nanAfterPreData : CausalImpactData :=
  match causalImpactDataInit nanAfterPreFrame (0, 2) (3, 4) true none false with
  | .ok d => d
  | .error _ => dummyData

/-- An evaluation table carrying both quantile-band columns and a
standard-deviation column. -/
def bandsAndStdSeries : Series :=
  [{ time := 0, p1 := 0, p2 := 0, p3 := 1, p4 := 1,
     cells := [("posterior_mean", some 10), ("posterior_lower", some 8),
               ("posterior_upper", some 12), ("posterior_std", some 2)] },
   { time := 1, p1 := 0, p2 := 0, p3 := 1, p4 := 1,
     cells := [("posterior_mean", some 11), ("posterior_lower", some 9),
               ("posterior_upper", some 13), ("posterior_std", some 2)] }]

/-- An evaluation table carrying posterior-median columns. -/
def medianSeries : Series :=
  [{ time := 0, p1 := 0, p2 := 0, p3 := 1, p4 := 1,
     cells := [("posterior_mean", some 10), ("posterior_median", some 9),
               ("observed", some 10)] },
   { time := 1, p1 := 0, p2 := 0, p3 := 1, p4 := 1,
     cells := [("posterior_mean", some 11), ("posterior_median", some 10),
               ("observed", some 12)] }]

/-- An evaluation table with a `cumulative_effects_mean` column. -/
def cumulativeSeries : Series :=
  [{ time := 0, p1 := 0, p2 := 0, p3 := 1, p4 := 1,
     cells := [("cumulative_effects_mean", some 7)] }]

/-- The renderer input contains a row whose `band_method` is `bm`. -/
def rendererHasBandMethod (res : Except String (List PlotRow)) (bm : String) : Bool :=
  match res with
  | .ok t => t.any (fun r => decide (r.band_method = some bm))
  | .error _ => false

/-- The renderer input contains a row whose `stat` is `st`. -/
def rendererHasStat (res : Except String (List PlotRow)) (st : String) : Bool :=
  match res with
  | .ok t => t.any (fun r => decide (r.stat = st))
  | .error _ => false

/-- The renderer input exists and contains no row whose `stat` is `st`. -/
def rendererLacksStat (res : Except String (List PlotRow)) (st : String) : Bool :=
  match res with
  | .ok t => t.all (fun r => decide (r.stat ≠ st))
  | .error _ => false

/-! ## The claims -/

/-- C1: the claim says that after the band-method row filter the renderer
input contains at most one distinct non-null `band_method` value ("std"
when `use_std_intervals` is true).  The code violates this: the
`use_std_intervals=True` branch filters `band_method != "quantile"`, but
the value stamped by the component extractor is `"quantiles"`, so nothing
is dropped and both "quantiles" and "std" rows reach the renderer, as this
evaluation at a table with both band kinds shows.  (This contradicts the
source's own comment, which says the branch keeps only the std-based
intervals.) -/
theorem c1_use_std_intervals_keeps_quantile_rows :
    rendererHasBandMethod
      (plotRendererInput bandsAndStdSeries [("use_std_intervals", PVal.b true)] 2)
      "quantiles" = true ∧
    rendererHasBandMethod
      (plotRendererInput bandsAndStdSeries [("use_std_intervals", PVal.b true)] 2)
      "std" = true := by decide

/-- C2: the claim (and the docstring of `plot`) says `show_median=True`
includes the median rows in the renderer input and `show_median=False`
excludes them.  The code has the condition inverted: `show_median=True`
filters the median rows out, and the default `show_median=False` leaves
them in, as this evaluation at a table with median columns shows. -/
theorem c2_show_median_drops_median_rows :
    rendererLacksStat
      (plotRendererInput medianSeries [("show_median", PVal.b true)] 2)
      "median" = true ∧
    rendererHasStat (plotRendererInput medianSeries [] 2) "median" = true := by
  decide

/-- C3: a constant target column (all non-null values equal, at least one
present) makes the construction of the dataset fail with the
statistical-validity `ValueError` "Input response cannot be constant.".
In this embedding validation precedes slicing, so the error result carries
no dataset and no pre-period or after-pre slice is materialized. -/
theorem c3_constant_target_rejected (df : Frame) (pre post : Int × Int)
    (dropNan : Bool) (tn : Option String) (std : Bool) (t : String) (v : ℚ)
    (hp : exceptIsOk (parseAndValidatePeriods df pre post) = true)
    (ht : resolveTarget df tn = some t)
    (hmem : t ∈ df.colNames)
    (hne : nonNullValues (df.colValues t) ≠ [])
    (hconst : ∀ x ∈ nonNullValues (df.colValues t), x = v) :
    causalImpactDataInit df pre post dropNan tn std =
      .error (.valueError "Input response cannot be constant.") := by
  have hval : validateDataAndColumns df tn =
      .error (.valueError "Input response cannot be constant.") := by
    simp only [validateDataAndColumns, ht]
    rw [if_pos hmem, if_pos (popVariance?_const _ v hne hconst)]
  cases hpp : parseAndValidatePeriods df pre post with
  | error e => rw [hpp] at hp; exact absurd hp (by simp [exceptIsOk])
  | ok pp =>
    obtain ⟨pp1, pp2⟩ := pp
    unfold causalImpactDataInit
    rw [hpp, hval]

theorem c3_constant_target_rejected_witness :
    exceptIsOk (parseAndValidatePeriods constantFrame (0, 2) (3, 4)) = true ∧
    causalImpactDataInit constantFrame (0, 2) (3, 4) true none true =
      .error (.valueError "Input response cannot be constant.") :=
  ⟨by decide,
   c3_constant_target_rejected constantFrame (0, 2) (3, 4) true none true "y" 5
     (by decide) (by decide) (by decide) (by decide) (by decide)⟩

/-- C4: for every validly constructed dataset, every index entry of the
pre-period slice lies in the closed interval given by the pre-period, and
the index of the after-pre slice is exactly the input table's index
restricted to entries strictly greater than the pre-period end. -/
theorem c4_dataset_slice_indices (df : Frame) (pre post : Int × Int)
    (dropNan : Bool) (tn : Option String) (std : Bool) (d : CausalImpactData)
    (h : causalImpactDataInit df pre post dropNan tn std = .ok d) :
    d.preInterventionData.index.all
      (fun i => decide (d.preInterventionPeriod.1 ≤ i) &&
                decide (i ≤ d.preInterventionPeriod.2)) = true ∧
    d.afterPreInterventionData.index =
      df.index.filter (fun i => decide (d.preInterventionPeriod.2 < i)) := by
  obtain ⟨data, t, feats, hval, hpre, -, -, hpredata, hafter, -⟩ :=
    causalImpactDataInit_ok df pre post dropNan tn std d h
  constructor
  · rw [hpredata, hpre, filterIndex_index, List.all_eq_true]
    intro i hi
    exact (List.mem_filter.mp hi).2
  · rw [hafter, hpre, filterIndex_index,
        validateDataAndColumns_index df tn data t feats hval]

theorem c4_dataset_slice_indices_witness :
    causalImpactDataInit nanAfterPreFrame (0, 2) (3, 4) true none false =
      .ok nanAfterPreData ∧
    (nanAfterPreData.preInterventionData.index.all
      (fun i => decide (nanAfterPreData.preInterventionPeriod.1 ≤ i) &&
                decide (i ≤ nanAfterPreData.preInterventionPeriod.2)) = true ∧
    nanAfterPreData.afterPreInterventionData.index =
      nanAfterPreFrame.index.filter
        (fun i => decide (nanAfterPreData.preInterventionPeriod.2 < i))) :=
  ⟨by with_unfolding_all decide,
   c4_dataset_slice_indices nanAfterPreFrame (0, 2) (3, 4) true none false
     nanAfterPreData (by with_unfolding_all decide)⟩

/-- C5 counterexample: the claim says that with `standardize_data=False`
both "normalized" slices equal the raw slices.  With the default
`drop_post_period_nan=True` and a missing target value after the
pre-period, the normalized after-pre slice has the NaN row dropped and so
differs from the raw after-pre slice. -/
theorem c5_counterexample_dropna_changes_slice :
    causalImpactDataInit nanAfterPreFrame (0, 2) (3, 4) true none false =
      .ok nanAfterPreData ∧
    nanAfterPreData.standardizeData = false ∧
    nanAfterPreData.normalizedAfterPreInterventionData ≠
      nanAfterPreData.afterPreInterventionData := by with_unfolding_all decide

/-- C5 as amended: with `standardize_data=False` the normalized pre-period
slice equals the raw pre-period slice, and the normalized after-pre slice
equals the raw after-pre slice when `drop_post_period_nan` is false, and
the raw after-pre slice with missing-value rows dropped when it is
true. -/
theorem c5_no_standardize_slices_amended (df : Frame) (pre post : Int × Int)
    (dropNan : Bool) (tn : Option String) (d : CausalImpactData)
    (h : causalImpactDataInit df pre post dropNan tn false = .ok d) :
    d.normalizedPreInterventionData = d.preInterventionData ∧
    d.normalizedAfterPreInterventionData =
      (if dropNan then d.afterPreInterventionData.dropna
       else d.afterPreInterventionData) := by
  obtain ⟨data, t, feats, -, -, -, -, -, -, hnorm⟩ :=
    causalImpactDataInit_ok df pre post dropNan tn false d h
  exact hnorm rfl

theorem c5_no_standardize_slices_amended_witness :
    nanAfterPreData.normalizedPreInterventionData =
      nanAfterPreData.preInterventionData ∧
    nanAfterPreData.normalizedAfterPreInterventionData =
      (if true then nanAfterPreData.afterPreInterventionData.dropna
       else nanAfterPreData.afterPreInterventionData) :=
  c5_no_standardize_slices_amended nanAfterPreFrame (0, 2) (3, 4) true none
    nanAfterPreData (by with_unfolding_all decide)

/-- C6: a column named `cumulative_effects_mean` is classified by the
component extractor as scale `cumulative_effects` and stat `mean` — never
as scale `cumulative_effects_mean` — because the suffix-stripping removes
the `_mean` suffix and the prefix-stripping removes the longer
`cumulative_effects_` prefix. -/
theorem c6_cumulative_effects_mean_classified (series : Series)
    (component : String) (m : MeltRow)
    (_hm : m ∈ meltComponent series component)
    (hname : m.scaleStat = "cumulative_effects_mean") :
    (toLineRow m).scale = "cumulative_effects" ∧
    (toLineRow m).stat = "mean" ∧
    (toLineRow m).scale ≠ "cumulative_effects_mean" := by
  have hs : (toLineRow m).scale = classifyScale m.scaleStat := rfl
  have ht : (toLineRow m).stat = classifyStat m.scaleStat := rfl
  rw [hs, ht, hname]
  exact ⟨by decide, by decide, by decide⟩

/-- The melted row produced by the `cumulative_effects_mean` column of
`cumulativeSeries`. -/
def cumulativeMeltRow : MeltRow :=
  { time := 0, p1 := 0, p2 := 0, p3 := 1, p4 := 1,
    scaleStat := "cumulative_effects_mean", value := some 7 }

theorem c6_cumulative_effects_mean_classified_witness :
    cumulativeMeltRow ∈ meltComponent cumulativeSeries "lines" ∧
    ((toLineRow cumulativeMeltRow).scale = "cumulative_effects" ∧
     (toLineRow cumulativeMeltRow).stat = "mean" ∧
     (toLineRow cumulativeMeltRow).scale ≠ "cumulative_effects_mean") :=
  ⟨by decide,
   c6_cumulative_effects_mean_classified cumulativeSeries "lines"
     cumulativeMeltRow (by decide) (by decide)⟩

/-- The pivot key of a band row. -/
def keyOfBand (r : BandRow) : PKey :=
  { time := r.time, p1 := r.p1, p2 := r.p2, p3 := r.p3, p4 := r.p4,
    scale := r.scale }

/-- C7: every row of the std component carries `band_method = "std"`, and
where the pivoted `mean` and `std` aggregates of its `(time, scale)` key
are defined, its bounds are `lower = mean - z·std` and
`upper = mean + z·std`, `z` being the externally computed standard-normal
quantile at `1 - alpha/2` (see `stdDf`).  The intermediate `mean`/`std`
pivot columns are dropped: the output schema `BandRow` does not contain
them. -/
theorem c7_std_component_semantics (series : Series) (z : ℚ) (r : BandRow)
    (hr : r ∈ stdDf series z) (m s : ℚ)
    (hm : aggStat (meltComponent series "std") (keyOfBand r) "mean" = some m)
    (hs : aggStat (meltComponent series "std") (keyOfBand r) "std" = some s) :
    r.band_method = "std" ∧ r.lower = some (m - z * s) ∧
    r.upper = some (m + z * s) := by
  simp only [stdDf, List.mem_map] at hr
  obtain ⟨k, hk, rfl⟩ := hr
  have hkey : keyOfBand
      { time := k.time, p1 := k.p1, p2 := k.p2, p3 := k.p3, p4 := k.p4,
        scale := k.scale,
        lower := omap2 (fun m s => m - z * s)
          (aggStat (meltComponent series "std") k "mean")
          (aggStat (meltComponent series "std") k "std"),
        upper := omap2 (fun m s => m + z * s)
          (aggStat (meltComponent series "std") k "mean")
          (aggStat (meltComponent series "std") k "std"),
        band_method := "std" } = k := by
    cases k
    rfl
  rw [hkey] at hm hs
  refine ⟨rfl, ?_, ?_⟩
  · show omap2 (fun m s => m - z * s)
      (aggStat (meltComponent series "std") k "mean")
      (aggStat (meltComponent series "std") k "std") = some (m - z * s)
    rw [hm, hs]
    rfl
  · show omap2 (fun m s => m + z * s)
      (aggStat (meltComponent series "std") k "mean")
      (aggStat (meltComponent series "std") k "std") = some (m + z * s)
    rw [hm, hs]
    rfl

/-- The std-band row of `bandsAndStdSeries` at time 0: mean 10, std 2,
z = 2, hence bounds 6 and 14. -/
def stdBandRow : BandRow :=
  { time := 0, p1 := 0, p2 := 0, p3 := 1, p4 := 1, scale := "original",
    lower := some 6, upper := some 14, band_method := "std" }

theorem c7_std_component_semantics_witness :
    stdBandRow.band_method = "std" ∧
    stdBandRow.lower = some (10 - 2 * 2) ∧
    stdBandRow.upper = some (10 + 2 * 2) :=
  c7_std_component_semantics bandsAndStdSeries 2 stdBandRow
    (by with_unfolding_all decide) 10 2
    (by with_unfolding_all decide) (by with_unfolding_all decide)

/-- C8: a component outside `{lines, bands, std}` makes the component
extractor fail with the invalid-argument error whose message names the
three allowed components, and it produces no output table (the result is
the error branch). -/
theorem c8_invalid_component_rejected (series : Series) (component : String)
    (z : ℚ) (h : component ∉ validComponents) :
    createPlotComponentDf series component z =
      .error (invalidComponentMsg component) ∧
    strContains (invalidComponentMsg component) "lines" = true ∧
    strContains (invalidComponentMsg component) "bands" = true ∧
    strContains (invalidComponentMsg component) "std" = true := by
  refine ⟨?_, ?_, ?_, ?_⟩
  · unfold createPlotComponentDf
    rw [if_neg h]
  · unfold invalidComponentMsg
    exact strContains_append_right _ _ _ (strContains_append_right _ _ _ (by decide))
  · unfold invalidComponentMsg
    exact strContains_append_right _ _ _ (strContains_append_right _ _ _ (by decide))
  · unfold invalidComponentMsg
    exact strContains_append_right _ _ _ (strContains_append_right _ _ _ (by decide))

theorem c8_invalid_component_rejected_witness :
    createPlotComponentDf medianSeries "invalid" 2 =
      .error (invalidComponentMsg "invalid") ∧
    strContains (invalidComponentMsg "invalid") "lines" = true ∧
    strContains (invalidComponentMsg "invalid") "bands" = true ∧
    strContains (invalidComponentMsg "invalid") "std" = true :=
  c8_invalid_component_rejected medianSeries "invalid" 2 (by decide)

/-- C9: when the four period-boundary columns are replicated with the same
values on every row of the evaluation table (as the EvaluationTable shape
prescribes), every row of the assembled plot frame carries those exact
values — column selection, melt, pivot and merge all pass them through
unchanged. -/
theorem c9_period_columns_carried (series : Series) (z : ℚ) (a b c d : Int)
    (h : ∀ r ∈ series, r.p1 = a ∧ r.p2 = b ∧ r.p3 = c ∧ r.p4 = d) :
    (createPlotDf series z).all
      (fun pr => decide (pr.p1 = a) && decide (pr.p2 = b) &&
                 decide (pr.p3 = c) && decide (pr.p4 = d)) = true := by
  rw [List.all_eq_true]
  intro pr hpr
  simp only [createPlotDf] at hpr
  obtain ⟨l, hl, -, h2, h3, h4, h5⟩ := mergeLinesBands_mem _ _ pr hpr
  obtain ⟨r, hr, -, g2, g3, g4, g5⟩ := linesDf_mem series l hl
  obtain ⟨e1, e2, e3, e4⟩ := h r hr
  simp [h2, h3, h4, h5, g2, g3, g4, g5, e1, e2, e3, e4]

theorem c9_period_columns_carried_witness :
    (createPlotDf bandsAndStdSeries 2).all
      (fun pr => decide (pr.p1 = 0) && decide (pr.p2 = 0) &&
                 decide (pr.p3 = 1) && decide (pr.p4 = 1)) = true :=
  c9_period_columns_carried bandsAndStdSeries 2 0 0 1 1 (by decide)

/-- C10: two `plot` calls whose kwargs agree on every enumerated default
option key (and may differ arbitrarily on keys outside that set) produce
the same effective parameter dictionary and the same renderer input —
unrecognized option keys are silently ignored, never rejected. -/
theorem c10_unrecognized_kwargs_ignored (series : Series) (z : ℚ)
    (kw1 kw2 : Kwargs)
    (h : ∀ k ∈ defaultPlotParams.map Prod.fst, kw1.lookup k = kw2.lookup k) :
    mergePlotParams kw1 = mergePlotParams kw2 ∧
    plotRendererInput series kw1 z = plotRendererInput series kw2 z := by
  have hm : mergePlotParams kw1 = mergePlotParams kw2 := by
    unfold mergePlotParams
    apply List.map_congr_left
    intro kv hkv
    rw [h kv.1 (List.mem_map_of_mem Prod.fst hkv)]
  exact ⟨hm, by unfold plotRendererInput; rw [hm]⟩

/-- Kwargs with one unrecognized key alongside a recognized one. -/
def unknownKeyKwargs : Kwargs :=
  [("definitely_not_an_option", .b true), ("use_std_intervals", .b true)]

/-- The same kwargs restricted to the recognized key. -/
def recognizedOnlyKwargs : Kwargs := [("use_std_intervals", .b true)]

theorem c10_unrecognized_kwargs_ignored_witness :
    mergePlotParams unknownKeyKwargs = mergePlotParams recognizedOnlyKwargs ∧
    plotRendererInput medianSeries unknownKeyKwargs 2 =
      plotRendererInput medianSeries recognizedOnlyKwargs 2 :=
  c10_unrecognized_kwargs_ignored medianSeries 2 unknownKeyKwargs
    recognizedOnlyKwargs (by decide)

end CausalImpactSpec
